import Mathlib

/-!
Shallow embedding of the chat-context-and-brain-memory pipeline of the Helm
backend, translated from `backend/app/services/chat_service.py`,
`backend/app/services/brain_manager.py` and `backend/app/api/routes/chat.py`,
together with theorems checking the specification of that pipeline against
the embedded code.

Modelling conventions:
* UUID keys are modelled as `Nat`.
* Python strings are Lean `String`s; Python character slicing `s[:n]` is
  `strTake`, `str.lower()` is `strLower`, `sep.join(l)` is `strJoin`, and
  Python truthiness of an optional string is `strTruthy`.
* The relational store is a `DB` record of row lists; a SQLAlchemy
  `scalar_one_or_none` lookup is `List.find?` and a `WHERE ... IN` query is a
  `List.filter` in table order.
* Calls to the Anthropic client are modelled by a behaviour function giving,
  for each attempt index, the outcome of that attempt (`Except ApiError`
  for single-shot calls, a `StreamAttempt` for streaming calls).  Backoff
  delays are seconds as `Nat`: the Python delays `1.0 * 2 ** attempt` are
  exact powers of two, so nothing is lost.
* `asyncio.sleep` and logging have no observable effect besides the recorded
  delay list; the embedded functions return the yielded chunks and the slept
  delays.
-/

namespace Helm

/-- Settings from `app/config.py` (the fields this pipeline reads), with the
defaults declared there.  Values are overridable through the environment, so
theorems quantify over a `Settings` record. -/
structure Settings where
  environment : String
  pdf_context_max_chars : Nat
  note_context_max_chars : Nat
  max_total_context_chars : Nat
  brain_update_message_interval : Nat
  brain_history_window : Nat
deriving DecidableEq

/-- The defaults of `app/config.py`. -/
def defaultSettings : Settings :=
  { environment := "development"
    pdf_context_max_chars := 10000
    note_context_max_chars := 5000
    max_total_context_chars := 100000
    brain_update_message_interval := 5
    brain_history_window := 10 }

/-- `config.sanitize_error`: the full error string in development, a generic
message otherwise. -/
def sanitize_error (s : Settings) (error : String) (generic_message : String) : String :=
  if s.environment = "development" then error else generic_message

/-- Error categories of the Anthropic client that the code distinguishes:
`APIConnectionError`, `RateLimitError`, `APIStatusError` (carrying the HTTP
status code) and any other exception (carrying its rendering). -/
inductive ApiError where
  | connection
  | rateLimit
  | apiStatus (status_code : Nat)
  | other (message : String)
deriving DecidableEq

/-- Opaque rendering of `str(e)` for an Anthropic client error. -/
def errString : ApiError → String
  | .connection => "Connection error."
  | .rateLimit => "Rate limit exceeded."
  | .apiStatus code => "API status error " ++ toString code
  | .other message => message

/-- Membership in the tuple `_RETRYABLE_ERRORS = (APIConnectionError,
RateLimitError)`, defined identically in `chat_service.py` and
`brain_manager.py`. -/
def retryableError : ApiError → Bool
  | .connection => true
  | .rateLimit => true
  | .apiStatus _ => false
  | .other _ => false

/-- The error classes on which `brain_manager._retry_anthropic` retries: the
`_RETRYABLE_ERRORS` tuple plus an `APIStatusError` with status 529. -/
def brainRetryable (e : ApiError) : Bool :=
  retryableError e || (match e with | .apiStatus code => code == 529 | _ => false)

deriving instance DecidableEq for Except

/-- Trace of one run of a retried Anthropic call: the final outcome, the
number of times the underlying call was made, and the backoff delays slept
(in seconds, in order). -/
structure RetryTrace (α : Type) where
  result : Except ApiError α
  calls : Nat
  delays : List Nat
deriving DecidableEq

/-- The retry loop of `brain_manager._retry_anthropic` starting at a given
attempt index.  `behavior attempt` is the outcome of the call made on that
attempt.  The fuel argument counts the remaining iterations of
`for attempt in range(max_attempts)` and makes the recursion structural; the
fuel-exhausted base case is the trailing `raise last_error`, which is
unreachable when the fuel equals `max_attempts - attempt`. -/
def retryFrom (behavior : Nat → Except ApiError α) (max_attempts base_delay : Nat) :
    Nat → Nat → RetryTrace α
  | _, 0 => ⟨.error (.other "unreachable: raise last_error"), 0, []⟩
  | attempt, fuel + 1 =>
    match behavior attempt with
    | .ok value => ⟨.ok value, 1, []⟩
    | .error e =>
      let retryOrRaise : RetryTrace α :=
        if attempt < max_attempts - 1 then
          let t := retryFrom behavior max_attempts base_delay (attempt + 1) fuel
          ⟨t.result, t.calls + 1, base_delay * 2 ^ attempt :: t.delays⟩
        else ⟨.error e, 1, []⟩
      match e with
      | .connection => retryOrRaise
      | .rateLimit => retryOrRaise
      | .apiStatus code => if code = 529 then retryOrRaise else ⟨.error e, 1, []⟩
      | .other _ => ⟨.error e, 1, []⟩

/-- `brain_manager._retry_anthropic` with its default arguments
`max_attempts = 3`, `base_delay = 1.0`. -/
def retry_anthropic (behavior : Nat → Except ApiError α) : RetryTrace α :=
  retryFrom behavior 3 1 0 3

/-- Behaviour of one streaming attempt of `chat_service.stream_response`:
the text chunks the provider stream produced before either completing
(`failure = none`) or raising an error (`failure = some e`). -/
structure StreamAttempt where
  chunks : List String
  failure : Option ApiError
deriving DecidableEq

/-- The terminal error chunk yielded by `chat_service.stream_response`. -/
def error_chunk (s : Settings) (e : ApiError) : String :=
  "\n\n[Error: " ++
    sanitize_error s (errString e) "An error occurred while generating the response." ++ "]"

/-- The retry loop of `chat_service.stream_response` (with its hardcoded
`max_attempts = 3`) starting at a given attempt index: returns the full
sequence of chunks yielded to the caller and the backoff delays slept.
Chunks already produced by an attempt are yielded before its failure is
seen, so they stay in the output; only `_RETRYABLE_ERRORS` (connection and
rate limit) reach the retry branch, every other exception yields one
sanitized error chunk and returns. -/
def streamFrom (s : Settings) (behavior : Nat → StreamAttempt) :
    Nat → Nat → List String × List Nat
  | _, 0 => ([], [])
  | attempt, fuel + 1 =>
    let a := behavior attempt
    match a.failure with
    | none => (a.chunks, [])
    | some e =>
      let onTransient : List String × List Nat :=
        if attempt < 3 - 1 then
          let r := streamFrom s behavior (attempt + 1) fuel
          (a.chunks ++ r.1, 1 * 2 ^ attempt :: r.2)
        else (a.chunks ++ [error_chunk s e], [])
      match e with
      | .connection => onTransient
      | .rateLimit => onTransient
      | .apiStatus _ => (a.chunks ++ [error_chunk s e], [])
      | .other _ => (a.chunks ++ [error_chunk s e], [])

/-- `chat_service.stream_response`: the chunk sequence yielded to the caller
and the delays slept, as a function of the per-attempt provider behaviour. -/
def stream_response (s : Settings) (behavior : Nat → StreamAttempt) :
    List String × List Nat :=
  streamFrom s behavior 0 3

/-- The retry loop makes at most `fuel` calls. -/
theorem retryFrom_calls_le (behavior : Nat → Except ApiError α) (m d : Nat) :
    ∀ fuel attempt, (retryFrom behavior m d attempt fuel).calls ≤ fuel := by
  intro fuel
  induction fuel with
  | zero => intro attempt; simp [retryFrom]
  | succ n ih =>
    intro attempt
    simp only [retryFrom]
    cases behavior attempt with
    | ok a => simp
    | error e =>
      cases e with
      | connection =>
        by_cases h : attempt < m - 1 <;>
          simp [h, Nat.succ_le_succ (ih (attempt + 1)), Nat.le_add_left]
      | rateLimit =>
        by_cases h : attempt < m - 1 <;>
          simp [h, Nat.succ_le_succ (ih (attempt + 1)), Nat.le_add_left]
      | apiStatus code =>
        by_cases hc : code = 529 <;> by_cases h : attempt < m - 1 <;>
          simp [hc, h, Nat.succ_le_succ (ih (attempt + 1)), Nat.le_add_left]
      | other msg => simp [Nat.le_add_left]

/-- C4: `_retry_anthropic` makes at most 3 attempts; it retries only on
connection errors, rate-limit errors and the 529 overloaded status (any other
error aborts after a single call with no delay slept); when it retries it
sleeps 1 second before the second attempt and 2 seconds before the third; and
three consecutive connection errors end as a terminal connection failure
after exactly 3 calls with no fourth attempt. -/
theorem c4_retry_policy :
    (∀ behavior : Nat → Except ApiError String, (retry_anthropic behavior).calls ≤ 3)
    ∧ (∀ (behavior : Nat → Except ApiError String) (e : ApiError),
        brainRetryable e = false → behavior 0 = .error e →
        retry_anthropic behavior = ⟨.error e, 1, []⟩)
    ∧ (∀ (behavior : Nat → Except ApiError String) (e : ApiError) (a : String),
        brainRetryable e = true → behavior 0 = .error e → behavior 1 = .ok a →
        retry_anthropic behavior = ⟨.ok a, 2, [1]⟩)
    ∧ (∀ (behavior : Nat → Except ApiError String) (e0 e1 e2 : ApiError),
        brainRetryable e0 = true → brainRetryable e1 = true → brainRetryable e2 = true →
        behavior 0 = .error e0 → behavior 1 = .error e1 → behavior 2 = .error e2 →
        retry_anthropic behavior = ⟨.error e2, 3, [1, 2]⟩)
    ∧ retry_anthropic (fun _ => (.error .connection : Except ApiError String)) =
        ⟨.error .connection, 3, [1, 2]⟩ := by
  refine ⟨fun behavior => retryFrom_calls_le behavior 3 1 3 0, ?_, ?_, ?_, by decide⟩
  · intro behavior e he hb0
    simp only [retry_anthropic, retryFrom, hb0]
    cases e with
    | connection => simp [brainRetryable, retryableError] at he
    | rateLimit => simp [brainRetryable, retryableError] at he
    | apiStatus code =>
      simp only [brainRetryable, retryableError, Bool.false_or, beq_eq_false_iff_ne] at he
      simp [he]
    | other msg => rfl
  · intro behavior e a he hb0 hb1
    cases e with
    | connection => simp [retry_anthropic, retryFrom, hb0, hb1]
    | rateLimit => simp [retry_anthropic, retryFrom, hb0, hb1]
    | apiStatus code =>
      simp only [brainRetryable, retryableError, Bool.false_or, beq_iff_eq] at he
      simp [retry_anthropic, retryFrom, hb0, hb1, he]
    | other msg => simp [brainRetryable, retryableError] at he
  · intro behavior e0 e1 e2 he0 he1 he2 hb0 hb1 hb2
    have step : ∀ (e : ApiError) (attempt fuel : Nat), brainRetryable e = true →
        attempt < 2 → behavior attempt = .error e →
        retryFrom behavior 3 1 attempt (fuel + 1) =
          ⟨(retryFrom behavior 3 1 (attempt + 1) fuel).result,
           (retryFrom behavior 3 1 (attempt + 1) fuel).calls + 1,
           2 ^ attempt :: (retryFrom behavior 3 1 (attempt + 1) fuel).delays⟩ := by
      intro e attempt fuel he hlt hb
      cases e with
      | connection => simp [retryFrom, hb, hlt]
      | rateLimit => simp [retryFrom, hb, hlt]
      | apiStatus code =>
        simp only [brainRetryable, retryableError, Bool.false_or, beq_iff_eq] at he
        simp [retryFrom, hb, hlt, he]
      | other msg => simp [brainRetryable, retryableError] at he
    have last : retryFrom behavior 3 1 2 1 = ⟨.error e2, 1, []⟩ := by
      cases e2 with
      | connection => simp [retryFrom, hb2]
      | rateLimit => simp [retryFrom, hb2]
      | apiStatus code =>
        simp only [brainRetryable, retryableError, Bool.false_or, beq_iff_eq] at he2
        simp [retryFrom, hb2, he2]
      | other msg => simp [brainRetryable, retryableError] at he2
    have h1 := step e1 1 1 he1 (by decide) hb1
    have h0 := step e0 0 2 he0 (by decide) hb0
    simp [retry_anthropic, h0, h1, last]

/-- Witness for C4 at concrete behaviours. -/
theorem c4_retry_policy_witness :
    (retry_anthropic (fun _ => (.error .rateLimit : Except ApiError String))).calls ≤ 3
    ∧ brainRetryable (.other "boom") = false
    ∧ retry_anthropic (fun _ => (.error (.other "boom") : Except ApiError String)) =
        ⟨.error (.other "boom"), 1, []⟩ :=
  ⟨c4_retry_policy.1 _, by decide, c4_retry_policy.2.1 _ _ (by decide) rfl⟩

/-- Provider behaviour in which the first streaming attempt yields one chunk
and then raises a connection error, and every later attempt streams the same
chunk and completes. -/
def midStreamFailure : Nat → StreamAttempt :=
  fun attempt => if attempt = 0 then ⟨["Hello"], some .connection⟩ else ⟨["Hello"], none⟩

/-- C2 counterexample: it is not true that once a chunk has been yielded a
subsequent transient error ends the sequence with a single terminal error
chunk.  With `midStreamFailure` the code re-establishes the stream after the
mid-stream connection error and emits "Hello" twice, with no error chunk. -/
theorem c2_counterexample :
    ¬ (∀ (s : Settings) (behavior : Nat → StreamAttempt) (e : ApiError),
        (behavior 0).chunks ≠ [] → (behavior 0).failure = some e →
        retryableError e = true →
        (stream_response s behavior).1 = (behavior 0).chunks ++ [error_chunk s e]) := by
  intro h
  have h2 := h defaultSettings midStreamFailure .connection (by decide) (by decide) (by decide)
  have h3 : (stream_response defaultSettings midStreamFailure).1 = ["Hello", "Hello"] := by
    decide
  rw [h3] at h2
  exact absurd h2 (by decide)

/-- C2 amended: a transient (connection or rate-limit) provider error
mid-stream is retried as long as attempts remain, re-establishing the stream
after the already-emitted chunks (so text may be produced a second time);
a non-retryable error, or a transient error on the third attempt, instead
appends exactly one terminal error chunk and ends the sequence. -/
theorem c2_stream_commit :
    (∀ (s : Settings) (behavior : Nat → StreamAttempt) (e : ApiError),
        (behavior 0).failure = some e → retryableError e = true →
        (behavior 1).failure = none →
        stream_response s behavior = ((behavior 0).chunks ++ (behavior 1).chunks, [1]))
    ∧ (∀ (s : Settings) (behavior : Nat → StreamAttempt) (e : ApiError),
        (behavior 0).failure = some e → retryableError e = false →
        stream_response s behavior = ((behavior 0).chunks ++ [error_chunk s e], []))
    ∧ (∀ (s : Settings) (behavior : Nat → StreamAttempt) (e0 e1 e2 : ApiError),
        (behavior 0).failure = some e0 → retryableError e0 = true →
        (behavior 1).failure = some e1 → retryableError e1 = true →
        (behavior 2).failure = some e2 → retryableError e2 = true →
        stream_response s behavior =
          ((behavior 0).chunks ++ ((behavior 1).chunks ++ ((behavior 2).chunks ++
            [error_chunk s e2])), [1, 2])) := by
  refine ⟨?_, ?_, ?_⟩
  · intro s behavior e hb0 he hb1
    cases e with
    | connection => simp [stream_response, streamFrom, hb0, hb1]
    | rateLimit => simp [stream_response, streamFrom, hb0, hb1]
    | apiStatus code => simp [retryableError] at he
    | other msg => simp [retryableError] at he
  · intro s behavior e hb0 he
    cases e with
    | connection => simp [retryableError] at he
    | rateLimit => simp [retryableError] at he
    | apiStatus code => simp [stream_response, streamFrom, hb0]
    | other msg => simp [stream_response, streamFrom, hb0]
  · intro s behavior e0 e1 e2 hb0 he0 hb1 he1 hb2 he2
    have last : streamFrom s behavior 2 1 =
        ((behavior 2).chunks ++ [error_chunk s e2], []) := by
      cases e2 with
      | connection => simp [streamFrom, hb2]
      | rateLimit => simp [streamFrom, hb2]
      | apiStatus code => simp [retryableError] at he2
      | other msg => simp [retryableError] at he2
    have mid : streamFrom s behavior 1 2 =
        ((behavior 1).chunks ++ (streamFrom s behavior 2 1).1,
          2 :: (streamFrom s behavior 2 1).2) := by
      cases e1 with
      | connection => simp [streamFrom, hb1]
      | rateLimit => simp [streamFrom, hb1]
      | apiStatus code => simp [retryableError] at he1
      | other msg => simp [retryableError] at he1
    have top : stream_response s behavior =
        ((behavior 0).chunks ++ (streamFrom s behavior 1 2).1,
          1 :: (streamFrom s behavior 1 2).2) := by
      cases e0 with
      | connection => simp [stream_response, streamFrom, hb0]
      | rateLimit => simp [stream_response, streamFrom, hb0]
      | apiStatus code => simp [retryableError] at he0
      | other msg => simp [retryableError] at he0
    rw [top, mid, last]

/-- Witness for the amended C2 at the `midStreamFailure` behaviour. -/
theorem c2_stream_commit_witness :
    (midStreamFailure 0).failure = some .connection
    ∧ retryableError .connection = true
    ∧ (midStreamFailure 1).failure = none
    ∧ stream_response defaultSettings midStreamFailure = (["Hello", "Hello"], [1]) := by
  refine ⟨rfl, rfl, rfl, ?_⟩
  have h := c2_stream_commit.1 defaultSettings midStreamFailure .connection rfl rfl rfl
  simpa using h

/-- Behaviour where stream establishment fails once with the given error
before any chunk, and the next attempt streams "ok" and completes. -/
def establishFailOnce (e : ApiError) : Nat → StreamAttempt :=
  fun attempt => if attempt = 0 then ⟨[], some e⟩ else ⟨["ok"], none⟩

/-- Single-shot call behaviour failing once with the given error and then
succeeding with "ok". -/
def callFailOnce (e : ApiError) : Nat → Except ApiError String :=
  fun attempt => if attempt = 0 then .error e else .ok "ok"

/-- C3 counterexample: the chat streamer does not retry the same error
classes as the Brain Store.  An establishment failure with the overloaded
529 status recovers on retry in `_retry_anthropic` but is terminal for
`stream_response`, which never reaches the second attempt. -/
theorem c3_counterexample :
    ¬ (∀ e : ApiError,
        ((retry_anthropic (callFailOnce e)).result = .ok "ok") ↔
          ((stream_response defaultSettings (establishFailOnce e)).1 = ["ok"])) := by
  intro h
  have h529 := (h (.apiStatus 529)).mp (by decide)
  exact absurd h529 (by decide)

/-- C3 amended: the streamer retries, with the same doubling 1s/2s backoff as
the Brain Store, exactly the `_RETRYABLE_ERRORS` classes (connection and rate
limit); the 529 overloaded status, which the Brain Store does retry, is
terminal for the streamer, which yields one error chunk with no retry. -/
theorem c3_stream_retry_classes :
    (∀ e, retryableError e = true →
        stream_response defaultSettings (establishFailOnce e) = (["ok"], [1])
        ∧ (retry_anthropic (callFailOnce e)).result = .ok "ok")
    ∧ (∀ e, retryableError e = false →
        stream_response defaultSettings (establishFailOnce e) =
          ([error_chunk defaultSettings e], []))
    ∧ brainRetryable (.apiStatus 529) = true
    ∧ retry_anthropic (callFailOnce (.apiStatus 529)) = ⟨.ok "ok", 2, [1]⟩
    ∧ (∀ e, retryableError e = true →
        (stream_response defaultSettings (fun _ => ⟨[], some e⟩)).2 = [1, 2]
        ∧ (retry_anthropic (fun _ => (.error e : Except ApiError String))).delays = [1, 2]) := by
  refine ⟨?_, ?_, by decide, by decide, ?_⟩
  · intro e he
    cases e with
    | connection => exact ⟨by decide, by decide⟩
    | rateLimit => exact ⟨by decide, by decide⟩
    | apiStatus code => simp [retryableError] at he
    | other msg => simp [retryableError] at he
  · intro e he
    cases e with
    | connection => simp [retryableError] at he
    | rateLimit => simp [retryableError] at he
    | apiStatus code => simp [stream_response, streamFrom, establishFailOnce]
    | other msg => simp [stream_response, streamFrom, establishFailOnce]
  · intro e he
    cases e with
    | connection => exact ⟨by decide, by decide⟩
    | rateLimit => exact ⟨by decide, by decide⟩
    | apiStatus code => simp [retryableError] at he
    | other msg => simp [retryableError] at he

/-- Witness for the amended C3 at the connection error class. -/
theorem c3_stream_retry_classes_witness :
    retryableError .connection = true
    ∧ stream_response defaultSettings (establishFailOnce .connection) = (["ok"], [1]) :=
  ⟨rfl, (c3_stream_retry_classes.1 .connection rfl).1⟩

/-- Python character slicing s[:n]. -/
def strTake (s : String) (n : Nat) : String := String.mk (s.data.take n)

/-- Python str.lower(), modelled character by character. -/
def strLower (s : String) : String := String.mk (s.data.map Char.toLower)

/-- Python truthiness of an optional string column: false for NULL and "". -/
def strTruthy : Option String → Bool
  | none => false
  | some s => s != ""

/-- Python sep.join(parts). -/
def strJoin (sep : String) : List String → String
  | [] => ""
  | [part] => part
  | part :: parts => part ++ sep ++ strJoin sep parts

/-- Python substring test: needle in hay, over characters. -/
def containsSub (needle hay : String) : Bool :=
  hay.data.tails.any (fun t => needle.data.isPrefixOf t)

/-- A row of the classes table (the columns this pipeline reads). -/
structure ClassRow where
  id : Nat
  user_id : Nat
  name : String
  code : Option String
deriving DecidableEq

/-- A row of the assignments table.  The due_date column is modelled by its
rendered string (dates always render non-empty); NULL is none. -/
structure AssignmentRow where
  id : Nat
  user_id : Nat
  title : String
  due_date : Option String
  notes_short : Option String
deriving DecidableEq

/-- A row of the pdfs table. -/
structure PDFRow where
  id : Nat
  user_id : Nat
  filename : String
  extracted_text : Option String
deriving DecidableEq

/-- A row of the notes table. -/
structure NoteRow where
  id : Nat
  user_id : Nat
  title : String
  content_text : Option String
deriving DecidableEq

/-- A row of the brain_memories table. -/
structure BrainRow where
  id : Nat
  user_id : Nat
  class_id : Option Nat
  brain_type : String
  content : String
  update_count : Nat
  last_updated_by_conversation_id : Option Nat
deriving DecidableEq

/-- A row of the chat_conversations table. -/
structure ConversationRow where
  id : Nat
  user_id : Nat
  title : String
  context_class_ids : List Nat
  context_assignment_ids : List Nat
  context_pdf_ids : List Nat
  context_note_ids : List Nat
deriving DecidableEq

/-- The relational store reachable from this pipeline, as lists of rows in
table order; next_id supplies fresh primary keys. -/
structure DB where
  classes : List ClassRow
  assignments : List AssignmentRow
  pdfs : List PDFRow
  notes : List NoteRow
  brains : List BrainRow
  conversations : List ConversationRow
  next_id : Nat
deriving DecidableEq

/-- The brain type tag derived in `get_or_create_brain`:
`"global" if class_id is None else "class"`. -/
def brainTypeOf : Option Nat → String
  | none => "global"
  | some _ => "class"

/-- The lookup of `BrainManager.get_or_create_brain`: select by the
(user_id, class_id, brain_type) uniqueness triple, `scalar_one_or_none`. -/
def brainLookup (db : DB) (user_id : Nat) (class_id : Option Nat)
    (brain_type : String) : Option BrainRow :=
  db.brains.find? (fun b =>
    b.user_id == user_id && b.class_id == class_id && b.brain_type == brain_type)

/-- `BrainManager.get_or_create_brain`: fetch the brain for the (user, scope)
pair, creating it with empty content and zero update count when absent.
Returns the brain together with the resulting store. -/
def get_or_create_brain (db : DB) (user_id : Nat) (class_id : Option Nat) :
    BrainRow × DB :=
  let brain_type := brainTypeOf class_id
  match brainLookup db user_id class_id brain_type with
  | some brain => (brain, db)
  | none =>
    let brain : BrainRow :=
      { id := db.next_id, user_id := user_id, class_id := class_id
        brain_type := brain_type, content := "", update_count := 0
        last_updated_by_conversation_id := none }
    (brain, { db with brains := db.brains ++ [brain], next_id := db.next_id + 1 })

/-- A message dict with "role" and "content" keys. -/
structure ChatMsg where
  role : String
  content : String
deriving DecidableEq

/-- The trigger words of `BrainManager.detect_pattern_update`. -/
def memoryKeywords : List String :=
  ["remember", "important", "always", "prefer", "don\x27t forget"]

/-- `BrainManager.detect_pattern_update`: false on an empty history; true if
the lowercased last message contains a trigger word; otherwise true iff the
user-message count is a positive multiple of the configured interval. -/
def detect_pattern_update (s : Settings) (conversation_history : List ChatMsg) : Bool :=
  match conversation_history.getLast? with
  | none => false
  | some last =>
    let user_message_count :=
      (conversation_history.filter (fun msg => msg.role == "user")).length
    let last_message := strLower last.content
    if memoryKeywords.any (fun keyword => containsSub keyword last_message) then true
    else
      decide (user_message_count > 0) &&
        (user_message_count % s.brain_update_message_interval == 0)

/-- C5: `detect_pattern_update` is a pure function of the history list that
returns false on an empty history, true when the lowercased last message
contains a trigger word, and otherwise true iff the user-message count is a
positive multiple of `brain_update_message_interval`; at the default interval
5, five user messages without trigger words give true and four give false. -/
theorem c5_detect_pattern :
    (∀ s : Settings, detect_pattern_update s [] = false)
    ∧ (∀ (s : Settings) (history : List ChatMsg) (m : ChatMsg),
        history.getLast? = some m →
        (memoryKeywords.any fun keyword => containsSub keyword (strLower m.content)) = true →
        detect_pattern_update s history = true)
    ∧ (∀ (s : Settings) (history : List ChatMsg) (m : ChatMsg),
        history.getLast? = some m →
        (memoryKeywords.any fun keyword => containsSub keyword (strLower m.content)) = false →
        detect_pattern_update s history =
          (decide ((history.filter fun msg => msg.role == "user").length > 0) &&
            ((history.filter fun msg => msg.role == "user").length %
              s.brain_update_message_interval == 0)))
    ∧ detect_pattern_update defaultSettings (List.replicate 5 ⟨"user", "hi"⟩) = true
    ∧ detect_pattern_update defaultSettings (List.replicate 4 ⟨"user", "hi"⟩) = false := by
  refine ⟨?_, ?_, ?_, by decide, by decide⟩
  · intro s; rfl
  · intro s history m hlast hkw
    simp [detect_pattern_update, hlast, hkw]
  · intro s history m hlast hkw
    simp [detect_pattern_update, hlast, hkw]

/-- Witness for C5: a single message containing "remember" triggers an
update regardless of count. -/
theorem c5_detect_pattern_witness :
    [ChatMsg.mk "user" "please remember this"].getLast? =
      some (ChatMsg.mk "user" "please remember this")
    ∧ (memoryKeywords.any fun keyword =>
        containsSub keyword (strLower "please remember this")) = true
    ∧ detect_pattern_update defaultSettings [ChatMsg.mk "user" "please remember this"] = true :=
  ⟨rfl, by decide,
    c5_detect_pattern.2.1 defaultSettings _ (ChatMsg.mk "user" "please remember this")
      rfl (by decide)⟩

/-- An empty store, for witnesses. -/
def emptyDB : DB := ⟨[], [], [], [], [], [], 0⟩

/-- C8: `get_or_create_brain` is idempotent — the second call with the same
(user, scope) returns the same brain row and leaves the store untouched —
and on first access it creates the brain with empty content and zero update
count. -/
theorem c8_get_or_create_idempotent :
    ∀ (db : DB) (user_id : Nat) (class_id : Option Nat),
      (get_or_create_brain (get_or_create_brain db user_id class_id).2 user_id class_id).1
        = (get_or_create_brain db user_id class_id).1
      ∧ (get_or_create_brain (get_or_create_brain db user_id class_id).2 user_id class_id).2
        = (get_or_create_brain db user_id class_id).2
      ∧ (brainLookup db user_id class_id (brainTypeOf class_id) = none →
          (get_or_create_brain db user_id class_id).1.content = ""
          ∧ (get_or_create_brain db user_id class_id).1.update_count = 0) := by
  intro db user_id class_id
  cases hfind : brainLookup db user_id class_id (brainTypeOf class_id) with
  | some brain =>
    have h1 : get_or_create_brain db user_id class_id = (brain, db) := by
      simp [get_or_create_brain, hfind]
    rw [h1]
    exact ⟨by simp [get_or_create_brain, hfind], by simp [get_or_create_brain, hfind],
      fun hnone => Option.noConfusion hnone⟩
  | none =>
    have h1 : get_or_create_brain db user_id class_id =
        (⟨db.next_id, user_id, class_id, brainTypeOf class_id, "", 0, none⟩,
          { db with
              brains := db.brains ++
                [⟨db.next_id, user_id, class_id, brainTypeOf class_id, "", 0, none⟩]
              next_id := db.next_id + 1 }) := by
      simp [get_or_create_brain, hfind]
    have h2 : brainLookup
        { db with
            brains := db.brains ++
              [⟨db.next_id, user_id, class_id, brainTypeOf class_id, "", 0, none⟩]
            next_id := db.next_id + 1 }
        user_id class_id (brainTypeOf class_id) =
        some ⟨db.next_id, user_id, class_id, brainTypeOf class_id, "", 0, none⟩ := by
      have hn : db.brains.find? (fun b =>
          b.user_id == user_id && b.class_id == class_id &&
            b.brain_type == brainTypeOf class_id) = none := hfind
      simp [brainLookup, List.find?_append, hn]
    rw [h1]
    exact ⟨by simp [get_or_create_brain, h2], by simp [get_or_create_brain, h2],
      fun _ => ⟨rfl, rfl⟩⟩

/-- Witness for C8 at the empty store. -/
theorem c8_get_or_create_idempotent_witness :
    brainLookup emptyDB 1 none (brainTypeOf none) = none
    ∧ (get_or_create_brain emptyDB 1 none).1.content = ""
    ∧ (get_or_create_brain emptyDB 1 none).1.update_count = 0 :=
  ⟨rfl, ((c8_get_or_create_idempotent emptyDB 1 none).2.2 rfl).1,
    ((c8_get_or_create_idempotent emptyDB 1 none).2.2 rfl).2⟩

/-- Python list slicing history[-n:] (the whole list when n = 0). -/
def lastSlice (n : Nat) (l : List ChatMsg) : List ChatMsg :=
  if n = 0 then l else l.drop (l.length - n)

/-- The fixed system instruction of `update_brain_after_conversation`,
embedding the brain's current content. -/
def brainSystemPrompt (current_content : String) : String :=
  "You are a memory system for a student assistant.\n\nCurrent brain content:\n" ++
    current_content ++
    "\n\nAnalyze the conversation and update the brain with:\n- New concepts or topics learned\n- Preferences or patterns (study habits, question types)\n- Recurring questions or difficulties\n- Important insights\n\nReturn ONLY the updated brain content as Markdown. Be concise and organized.\nIf there\x27s no new information worth remembering, return the current content unchanged."

/-- `BrainManager.update_brain_after_conversation`.  `llm prompt messages`
gives the per-attempt outcomes of `client.messages.create` for that prompt
and message list, retried through `_retry_anthropic`.  On success the brain
row is overwritten (content, incremented update count, triggering
conversation) and persisted; on any failure the exception is swallowed and
the prior content returned with the store untouched. -/
def update_brain_after_conversation (s : Settings)
    (llm : String → List ChatMsg → Nat → Except ApiError String)
    (db : DB) (brain : BrainRow) (conversation_history : List ChatMsg)
    (conversation_id : Nat) : DB × BrainRow × String :=
  let current_content :=
    if brain.content != "" then brain.content else "No existing knowledge yet."
  let system_prompt := brainSystemPrompt current_content
  let recent_messages := lastSlice s.brain_history_window conversation_history
  match (retry_anthropic (llm system_prompt recent_messages)).result with
  | .ok updated_content =>
    let updated : BrainRow :=
      { brain with
          content := updated_content
          update_count := brain.update_count + 1
          last_updated_by_conversation_id := some conversation_id }
    ({ db with brains := db.brains.map (fun b => if b.id == brain.id then updated else b) },
      updated, updated_content)
  | .error _ => (db, brain, brain.content)

/-- C6: when the retried LLM call inside `update_brain_after_conversation`
fails, the function returns the brain's prior content, leaves the store and
the brain row (content and update count) unchanged, and raises nothing —
it is a total function into its result type. -/
theorem c6_brain_update_failure :
    ∀ (s : Settings) (llm : String → List ChatMsg → Nat → Except ApiError String)
      (db : DB) (brain : BrainRow) (history : List ChatMsg) (conversation_id : Nat),
      (∀ (prompt : String) (messages : List ChatMsg),
        ∃ e, (retry_anthropic (llm prompt messages)).result = .error e) →
      update_brain_after_conversation s llm db brain history conversation_id =
        (db, brain, brain.content) := by
  intro s llm db brain history conversation_id hfail
  obtain ⟨e, he⟩ := hfail
    (brainSystemPrompt
      (if brain.content != "" then brain.content else "No existing knowledge yet."))
    (lastSlice s.brain_history_window history)
  simp only [update_brain_after_conversation]
  rw [he]

/-- Witness for C6: a provider that always fails leaves a concrete brain
untouched. -/
theorem c6_brain_update_failure_witness :
    (∀ (prompt : String) (messages : List ChatMsg),
      ∃ e, (retry_anthropic
        ((fun (_ : String) (_ : List ChatMsg) (_ : Nat) =>
          (.error (.other "provider down") : Except ApiError String)) prompt messages)).result
          = .error e)
    ∧ update_brain_after_conversation defaultSettings
        (fun _ _ _ => .error (.other "provider down"))
        emptyDB ⟨3, 1, none, "global", "prior knowledge", 2, none⟩ [] 5 =
        (emptyDB, ⟨3, 1, none, "global", "prior knowledge", 2, none⟩, "prior knowledge") := by
  refine ⟨fun prompt messages => ⟨.other "provider down", rfl⟩, ?_⟩
  exact c6_brain_update_failure defaultSettings _ emptyDB
    ⟨3, 1, none, "global", "prior knowledge", 2, none⟩ [] 5
    (fun prompt messages => ⟨.other "provider down", rfl⟩)

/-- Running state of `build_context`: the collected context parts and the
running character total. -/
structure BuildState where
  context_parts : List String
  total_chars : Nat
deriving DecidableEq

/-- `build_context._add_part`: append the part unless doing so would exceed
the total character budget.  The Python closure also returns a Bool, which
every caller ignores. -/
def add_part (max_total : Nat) (st : BuildState) (part : String) : BuildState :=
  if st.total_chars + part.length > max_total then st
  else ⟨st.context_parts ++ [part], st.total_chars + part.length⟩

/-- The class heading of `build_context` step 2, with the code appended when
present and non-empty. -/
def classHeader (c : ClassRow) : String :=
  (if strTruthy c.code then "# Class: " ++ c.name ++ " (" ++ c.code.getD "" ++ ")"
   else "# Class: " ++ c.name) ++ "\n"

/-- Step 2 of `build_context`: for each class id in input order — stopping
once the running total reaches the budget — the class heading (when the id
resolves for this user) and the class brain content (when non-empty). -/
def classLoop (s : Settings) (user_id : Nat) :
    List Nat → BuildState × DB → BuildState × DB
  | [], std => std
  | class_id :: rest, (st, db) =>
    if st.total_chars ≥ s.max_total_context_chars then (st, db)
    else
      let st := match db.classes.find? (fun c => c.id == class_id && c.user_id == user_id) with
        | some class_obj => add_part s.max_total_context_chars st (classHeader class_obj)
        | none => st
      let cb := get_or_create_brain db user_id (some class_id)
      let st := if cb.1.content != "" then
          add_part s.max_total_context_chars st ("## Class Brain\n" ++ cb.1.content ++ "\n")
        else st
      classLoop s user_id rest (st, cb.2)

/-- The rendered due date: `assignment.due_date or "No due date"`. -/
def dueStr : Option String → String
  | some d => d
  | none => "No due date"

/-- The bullet lines of `build_context` step 3 for the resolved
assignments. -/
def assignmentLines (assignments : List AssignmentRow) : List String :=
  (assignments.map (fun a =>
    ("- **" ++ a.title ++ "** (Due: " ++ dueStr a.due_date ++ ")") ::
      (if strTruthy a.notes_short then ["  - Notes: " ++ a.notes_short.getD ""] else []))).flatten

/-- Step 3 of `build_context`: one joined part for all resolved assignments,
added only when assignment ids were given and budget remains. -/
def assignmentsStage (s : Settings) (db : DB) (user_id : Nat)
    (assignment_ids : List Nat) (st : BuildState) : BuildState :=
  if assignment_ids ≠ [] ∧ st.total_chars < s.max_total_context_chars then
    if db.assignments.filter
        (fun a => assignment_ids.contains a.id && a.user_id == user_id) ≠ [] then
      add_part s.max_total_context_chars st
        (strJoin "\n" (("# Assignments in Context\n" ::
          assignmentLines (db.assignments.filter
            (fun a => assignment_ids.contains a.id && a.user_id == user_id))) ++ ["\n"]))
    else st
  else st

/-- The fixed per-document truncation marker. -/
def truncationMarker : String := "\n\n[... content truncated ...]"

/-- The (possibly truncated) PDF text segment of `build_context` step 4. -/
def pdfText (s : Settings) (extracted_text : String) : String :=
  let pdf_text := strTake extracted_text s.pdf_context_max_chars
  if extracted_text.length > s.pdf_context_max_chars then pdf_text ++ truncationMarker
  else pdf_text

/-- The context part emitted for one PDF. -/
def pdfPart (s : Settings) (pdf : PDFRow) : String :=
  "# Document: " ++ pdf.filename ++ "\n" ++ pdfText s (pdf.extracted_text.getD "") ++ "\n"

/-- The per-PDF loop of step 4, with its budget break. -/
def pdfLoop (s : Settings) : List PDFRow → BuildState → BuildState
  | [], st => st
  | pdf :: rest, st =>
    if st.total_chars ≥ s.max_total_context_chars then st
    else
      let st := if strTruthy pdf.extracted_text then
          add_part s.max_total_context_chars st (pdfPart s pdf)
        else st
      pdfLoop s rest st

/-- Step 4 of `build_context`. -/
def pdfStage (s : Settings) (db : DB) (user_id : Nat) (pdf_ids : List Nat)
    (st : BuildState) : BuildState :=
  if pdf_ids ≠ [] ∧ st.total_chars < s.max_total_context_chars then
    pdfLoop s (db.pdfs.filter (fun p => pdf_ids.contains p.id && p.user_id == user_id)) st
  else st

/-- The (possibly truncated) note text segment of `build_context` step 5. -/
def noteText (s : Settings) (content_text : String) : String :=
  let note_text := strTake content_text s.note_context_max_chars
  if content_text.length > s.note_context_max_chars then note_text ++ truncationMarker
  else note_text

/-- The context part emitted for one note. -/
def notePart (s : Settings) (note : NoteRow) : String :=
  "# Note: " ++ note.title ++ "\n" ++ noteText s (note.content_text.getD "") ++ "\n"

/-- The per-note loop of step 5, with its budget break. -/
def noteLoop (s : Settings) : List NoteRow → BuildState → BuildState
  | [], st => st
  | note :: rest, st =>
    if st.total_chars ≥ s.max_total_context_chars then st
    else
      let st := if strTruthy note.content_text then
          add_part s.max_total_context_chars st (notePart s note)
        else st
      noteLoop s rest st

/-- Step 5 of `build_context`. -/
def noteStage (s : Settings) (db : DB) (user_id : Nat) (note_ids : List Nat)
    (st : BuildState) : BuildState :=
  if note_ids ≠ [] ∧ st.total_chars < s.max_total_context_chars then
    noteLoop s (db.notes.filter (fun n => note_ids.contains n.id && n.user_id == user_id)) st
  else st

/-- The fixed overflow marker part appended when the budget is reached. -/
def overflowMarker : String :=
  "\n\n[... additional context omitted due to size limits ...]"

/-- `ChatService.build_context`: assemble the context string from the global
brain, class headings and brains, assignment metadata, PDF text and note
text, joined with blank-line separators; returns the context together with
the store (which may have gained lazily created brains). -/
def build_context (s : Settings) (db : DB) (user_id : Nat)
    (class_ids assignment_ids pdf_ids note_ids : List Nat) : String × DB :=
  let st : BuildState := ⟨[], 0⟩
  let gb := get_or_create_brain db user_id none
  let st := if gb.1.content != "" then
      add_part s.max_total_context_chars st
        ("# Global Knowledge\n" ++ gb.1.content ++ "\n")
    else st
  let std := classLoop s user_id class_ids (st, gb.2)
  let st := assignmentsStage s std.2 user_id assignment_ids std.1
  let st := pdfStage s std.2 user_id pdf_ids st
  let st := noteStage s std.2 user_id note_ids st
  let context_parts := if st.total_chars ≥ s.max_total_context_chars
    then st.context_parts ++ [overflowMarker]
    else st.context_parts
  ((if context_parts ≠ [] then strJoin "\n\n" context_parts
    else "No context available."), std.2)

/-- Whether a string ends with the given marker. -/
def strEndsWith (s marker : String) : Bool := marker.data.isSuffixOf s.data

/-- C9: for a PDF (resp. note) whose stored text exceeds
`pdf_context_max_chars` (resp. `note_context_max_chars`), the emitted
context segment is the heading followed by exactly the first cap-many
characters of the text and then the fixed truncation marker, and the
truncated text segment ends with that marker. -/
theorem c9_truncation :
    ∀ (s : Settings) (pdf : PDFRow) (note : NoteRow) (t u : String),
      (pdf.extracted_text = some t → s.pdf_context_max_chars < t.length →
        pdfPart s pdf =
            "# Document: " ++ pdf.filename ++ "\n" ++
              (strTake t s.pdf_context_max_chars ++ truncationMarker) ++ "\n"
          ∧ (strTake t s.pdf_context_max_chars).length = s.pdf_context_max_chars
          ∧ strEndsWith (pdfText s t) truncationMarker = true)
      ∧ (note.content_text = some u → s.note_context_max_chars < u.length →
        notePart s note =
            "# Note: " ++ note.title ++ "\n" ++
              (strTake u s.note_context_max_chars ++ truncationMarker) ++ "\n"
          ∧ (strTake u s.note_context_max_chars).length = s.note_context_max_chars
          ∧ strEndsWith (noteText s u) truncationMarker = true) := by
  intro s pdf note t u
  constructor
  · intro ht hlen
    have hbody : pdfText s t = strTake t s.pdf_context_max_chars ++ truncationMarker := by
      simp [pdfText, hlen]
    refine ⟨?_, ?_, ?_⟩
    · simp [pdfPart, ht, hbody]
    · have h2 : s.pdf_context_max_chars < t.data.length := hlen
      show (t.data.take s.pdf_context_max_chars).length = s.pdf_context_max_chars
      rw [List.length_take]
      omega
    · rw [hbody]
      simp [strEndsWith, List.isSuffixOf]
  · intro hu hlen
    have hbody : noteText s u = strTake u s.note_context_max_chars ++ truncationMarker := by
      simp [noteText, hlen]
    refine ⟨?_, ?_, ?_⟩
    · simp [notePart, hu, hbody]
    · have h2 : s.note_context_max_chars < u.data.length := hlen
      show (u.data.take s.note_context_max_chars).length = s.note_context_max_chars
      rw [List.length_take]
      omega
    · rw [hbody]
      simp [strEndsWith, List.isSuffixOf]

/-- Settings with small per-document caps, used to witness truncation. -/
def smallCapSettings : Settings :=
  { defaultSettings with pdf_context_max_chars := 3, note_context_max_chars := 2 }

/-- Witness for C9 at small caps. -/
theorem c9_truncation_witness :
    smallCapSettings.pdf_context_max_chars < ("abcde" : String).length
    ∧ (strTake "abcde" smallCapSettings.pdf_context_max_chars).length =
        smallCapSettings.pdf_context_max_chars
    ∧ strEndsWith (pdfText smallCapSettings "abcde") truncationMarker = true
    ∧ smallCapSettings.note_context_max_chars < ("wxyz" : String).length
    ∧ strEndsWith (noteText smallCapSettings "wxyz") truncationMarker = true := by
  have hp := (c9_truncation smallCapSettings ⟨1, 1, "notes.pdf", some "abcde"⟩
    ⟨2, 1, "note", some "wxyz"⟩ "abcde" "wxyz").1 rfl (by decide)
  have hn := (c9_truncation smallCapSettings ⟨1, 1, "notes.pdf", some "abcde"⟩
    ⟨2, 1, "note", some "wxyz"⟩ "abcde" "wxyz").2 rfl (by decide)
  exact ⟨by decide, hp.2.1, hp.2.2, by decide, hn.2.2⟩

/-- The HTTPException raised by the chat routes. -/
structure HTTPException where
  status_code : Nat
  detail : String
deriving DecidableEq

/-- Python truthiness of an optional id list: false for None and []. -/
def listTruthy : Option (List Nat) → Bool
  | none => false
  | some l => !l.isEmpty

/-- `select count(*) from classes where id in ids and user_id = user`:
the number of class rows owned by the user among the given ids. -/
def countOwnedClasses (db : DB) (user_id : Nat) (ids : List Nat) : Nat :=
  (db.classes.filter (fun c => ids.contains c.id && c.user_id == user_id)).length

/-- The analogous count over the assignments table. -/
def countOwnedAssignments (db : DB) (user_id : Nat) (ids : List Nat) : Nat :=
  (db.assignments.filter (fun a => ids.contains a.id && a.user_id == user_id)).length

/-- The analogous count over the pdfs table. -/
def countOwnedPdfs (db : DB) (user_id : Nat) (ids : List Nat) : Nat :=
  (db.pdfs.filter (fun p => ids.contains p.id && p.user_id == user_id)).length

/-- The analogous count over the notes table. -/
def countOwnedNotes (db : DB) (user_id : Nat) (ids : List Nat) : Nat :=
  (db.notes.filter (fun n => ids.contains n.id && n.user_id == user_id)).length

/-- `chat._validate_context_ids`: for each supplied non-empty id list, in
order, compare the count of matching user-owned rows against the list
length and raise 400 on mismatch. -/
def validate_context_ids (db : DB) (user_id : Nat)
    (class_ids assignment_ids pdf_ids note_ids : Option (List Nat)) :
    Except HTTPException Unit :=
  if listTruthy class_ids ∧
      countOwnedClasses db user_id (class_ids.getD []) ≠ (class_ids.getD []).length then
    .error ⟨400, "One or more class IDs are invalid or do not belong to you."⟩
  else if listTruthy assignment_ids ∧
      countOwnedAssignments db user_id (assignment_ids.getD []) ≠
        (assignment_ids.getD []).length then
    .error ⟨400, "One or more assignment IDs are invalid or do not belong to you."⟩
  else if listTruthy pdf_ids ∧
      countOwnedPdfs db user_id (pdf_ids.getD []) ≠ (pdf_ids.getD []).length then
    .error ⟨400, "One or more PDF IDs are invalid or do not belong to you."⟩
  else if listTruthy note_ids ∧
      countOwnedNotes db user_id (note_ids.getD []) ≠ (note_ids.getD []).length then
    .error ⟨400, "One or more note IDs are invalid or do not belong to you."⟩
  else .ok ()

/-- The body of `ConversationCreateRequest` (id lists default to []). -/
structure ConversationCreateRequest where
  title : Option String
  context_class_ids : List Nat
  context_assignment_ids : List Nat
  context_pdf_ids : List Nat
  context_note_ids : List Nat
deriving DecidableEq

/-- Python `lst or None` as passed by `create_conversation` to the
validator. -/
def noneIfEmpty (l : List Nat) : Option (List Nat) :=
  if l.isEmpty then none else some l

/-- `chat.create_conversation`: validate all supplied context ids, then
persist the new conversation; on a validation error nothing is persisted. -/
def create_conversation (db : DB) (user_id : Nat)
    (request : ConversationCreateRequest) : Except HTTPException ConversationRow × DB :=
  match validate_context_ids db user_id (noneIfEmpty request.context_class_ids)
      (noneIfEmpty request.context_assignment_ids) (noneIfEmpty request.context_pdf_ids)
      (noneIfEmpty request.context_note_ids) with
  | .error e => (.error e, db)
  | .ok _ =>
    let conversation : ConversationRow :=
      { id := db.next_id, user_id := user_id
        title := match request.title with
          | some t => if t != "" then t else "New Conversation"
          | none => "New Conversation"
        context_class_ids := request.context_class_ids
        context_assignment_ids := request.context_assignment_ids
        context_pdf_ids := request.context_pdf_ids
        context_note_ids := request.context_note_ids }
    (.ok conversation,
      { db with conversations := db.conversations ++ [conversation]
                next_id := db.next_id + 1 })

/-- The body of `ConversationUpdateContextRequest` (all lists optional). -/
structure ConversationUpdateContextRequest where
  context_class_ids : Option (List Nat)
  context_assignment_ids : Option (List Nat)
  context_pdf_ids : Option (List Nat)
  context_note_ids : Option (List Nat)
deriving DecidableEq

/-- `chat.update_conversation_context`: fetch the user-owned conversation
(404 when absent), validate the supplied id lists, then overwrite exactly
the provided scope fields; on a validation error nothing is changed. -/
def update_conversation_context (db : DB) (user_id conversation_id : Nat)
    (request : ConversationUpdateContextRequest) :
    Except HTTPException ConversationRow × DB :=
  match db.conversations.find?
      (fun c => c.id == conversation_id && c.user_id == user_id) with
  | none => (.error ⟨404, "Resource not found"⟩, db)
  | some conversation =>
    match validate_context_ids db user_id request.context_class_ids
        request.context_assignment_ids request.context_pdf_ids
        request.context_note_ids with
    | .error e => (.error e, db)
    | .ok _ =>
      let conversation := { conversation with
        context_class_ids := request.context_class_ids.getD conversation.context_class_ids
        context_assignment_ids :=
          request.context_assignment_ids.getD conversation.context_assignment_ids
        context_pdf_ids := request.context_pdf_ids.getD conversation.context_pdf_ids
        context_note_ids := request.context_note_ids.getD conversation.context_note_ids }
      (.ok conversation,
        { db with conversations :=
            db.conversations.map (fun c => if c.id == conversation.id then conversation else c) })

/-- The id being owned by the user in the classes table. -/
def ownsClass (db : DB) (user_id i : Nat) : Prop :=
  ∃ c ∈ db.classes, c.id = i ∧ c.user_id = user_id

/-- The id being owned by the user in the assignments table. -/
def ownsAssignment (db : DB) (user_id i : Nat) : Prop :=
  ∃ a ∈ db.assignments, a.id = i ∧ a.user_id = user_id

/-- The id being owned by the user in the pdfs table. -/
def ownsPdf (db : DB) (user_id i : Nat) : Prop :=
  ∃ p ∈ db.pdfs, p.id = i ∧ p.user_id = user_id

/-- The id being owned by the user in the notes table. -/
def ownsNote (db : DB) (user_id i : Nat) : Prop :=
  ∃ n ∈ db.notes, n.id = i ∧ n.user_id = user_id

/-- Some supplied context id does not resolve to a row owned by the user. -/
def HasForeignId (db : DB) (user_id : Nat) (cids aids pids nids : List Nat) : Prop :=
  (∃ i ∈ cids, ¬ ownsClass db user_id i) ∨ (∃ i ∈ aids, ¬ ownsAssignment db user_id i)
    ∨ (∃ i ∈ pids, ¬ ownsPdf db user_id i) ∨ (∃ i ∈ nids, ¬ ownsNote db user_id i)

/-- Well-formedness of the store: primary keys are unique per table. -/
def DB.WF (db : DB) : Prop :=
  (db.classes.map ClassRow.id).Nodup ∧ (db.assignments.map AssignmentRow.id).Nodup
    ∧ (db.pdfs.map PDFRow.id).Nodup ∧ (db.notes.map NoteRow.id).Nodup

/-- When some id in the list has no matching owned row, the owned-row count
falls short of the list length (keys being unique in the table). -/
theorem filter_owned_lt_of_foreign {α : Type} (rows : List α) (key : α → Nat)
    (own : α → Bool) (ids : List Nat) (hnd : (rows.map key).Nodup) (i : Nat)
    (hi : i ∈ ids) (hbad : ∀ r ∈ rows, ¬(key r = i ∧ own r = true)) :
    (rows.filter (fun r => ids.contains (key r) && own r)).length < ids.length := by
  classical
  set F := rows.filter (fun r => ids.contains (key r) && own r) with hF
  have hsub : F.Sublist rows := List.filter_sublist rows
  have hndF : (F.map key).Nodup := hnd.sublist (hsub.map key)
  have hcard : (F.map key).toFinset.card = F.length := by
    rw [List.toFinset_card_of_nodup hndF, List.length_map]
  have hsubset : (F.map key).toFinset ⊆ ids.toFinset.erase i := by
    intro k hk
    rw [List.mem_toFinset, List.mem_map] at hk
    obtain ⟨r, hrF, rfl⟩ := hk
    have hr := List.mem_filter.mp hrF
    have hcon := Bool.and_eq_true_iff.mp hr.2
    have hmem : key r ∈ ids := by
      have := hcon.1
      simpa using this
    have hne : key r ≠ i := fun he => hbad r hr.1 ⟨he, hcon.2⟩
    exact Finset.mem_erase.mpr ⟨hne, List.mem_toFinset.mpr hmem⟩
  have h1 : F.length ≤ (ids.toFinset.erase i).card := by
    rw [← hcard]; exact Finset.card_le_card hsubset
  have h2 : (ids.toFinset.erase i).card = ids.toFinset.card - 1 :=
    Finset.card_erase_of_mem (List.mem_toFinset.mpr hi)
  have h3 : ids.toFinset.card ≤ ids.length := ids.toFinset_card_le
  have h4 : 0 < ids.toFinset.card :=
    Finset.card_pos.mpr ⟨i, List.mem_toFinset.mpr hi⟩
  omega

/-- When the id list has a duplicate, the owned-row count falls short of the
list length (each owned row is counted once, keys being unique). -/
theorem filter_owned_lt_of_dup {α : Type} (rows : List α) (key : α → Nat)
    (own : α → Bool) (ids : List Nat) (hnd : (rows.map key).Nodup)
    (hdup : ¬ ids.Nodup) :
    (rows.filter (fun r => ids.contains (key r) && own r)).length < ids.length := by
  classical
  set F := rows.filter (fun r => ids.contains (key r) && own r) with hF
  have hsub : F.Sublist rows := List.filter_sublist rows
  have hndF : (F.map key).Nodup := hnd.sublist (hsub.map key)
  have hcard : (F.map key).toFinset.card = F.length := by
    rw [List.toFinset_card_of_nodup hndF, List.length_map]
  have hsubset : (F.map key).toFinset ⊆ ids.toFinset := by
    intro k hk
    rw [List.mem_toFinset, List.mem_map] at hk
    obtain ⟨r, hrF, rfl⟩ := hk
    have hr := List.mem_filter.mp hrF
    have hcon := Bool.and_eq_true_iff.mp hr.2
    have hmem : key r ∈ ids := by
      have := hcon.1
      simpa using this
    exact List.mem_toFinset.mpr hmem
  have h1 : F.length ≤ ids.toFinset.card := by
    rw [← hcard]; exact Finset.card_le_card hsubset
  have h2 : ids.toFinset.card = ids.dedup.length := List.card_toFinset ids
  have h3 : ids.dedup.length ≤ ids.length := ids.dedup_sublist.length_le
  have h4 : ids.dedup.length ≠ ids.length := by
    intro he
    exact hdup ((ids.dedup_sublist.eq_of_length he) ▸ ids.nodup_dedup)
  omega

/-- A supplied foreign id makes `_validate_context_ids` raise a 400. -/
theorem validate_error_of_foreign (db : DB) (user_id : Nat)
    (class_ids assignment_ids pdf_ids note_ids : Option (List Nat))
    (hwf : DB.WF db)
    (h : HasForeignId db user_id (class_ids.getD []) (assignment_ids.getD [])
      (pdf_ids.getD []) (note_ids.getD [])) :
    ∃ e, validate_context_ids db user_id class_ids assignment_ids pdf_ids note_ids =
      .error e ∧ e.status_code = 400 := by
  unfold validate_context_ids
  split_ifs with h1 h2 h3 h4
  · exact ⟨_, rfl, rfl⟩
  · exact ⟨_, rfl, rfl⟩
  · exact ⟨_, rfl, rfl⟩
  · exact ⟨_, rfl, rfl⟩
  exfalso
  rcases h with ⟨i, hi, hno⟩ | ⟨i, hi, hno⟩ | ⟨i, hi, hno⟩ | ⟨i, hi, hno⟩
  · cases class_ids with
    | none => simp at hi
    | some l =>
      have hlt : countOwnedClasses db user_id l < l.length :=
        filter_owned_lt_of_foreign db.classes ClassRow.id
          (fun c => c.user_id == user_id) l hwf.1 i hi
          (fun r hr hcon => hno ⟨r, hr, hcon.1, by simpa using hcon.2⟩)
      exact h1 ⟨by simp only [listTruthy]; simpa using List.ne_nil_of_mem hi, Nat.ne_of_lt hlt⟩
  · cases assignment_ids with
    | none => simp at hi
    | some l =>
      have hlt : countOwnedAssignments db user_id l < l.length :=
        filter_owned_lt_of_foreign db.assignments AssignmentRow.id
          (fun a => a.user_id == user_id) l hwf.2.1 i hi
          (fun r hr hcon => hno ⟨r, hr, hcon.1, by simpa using hcon.2⟩)
      exact h2 ⟨by simp only [listTruthy]; simpa using List.ne_nil_of_mem hi, Nat.ne_of_lt hlt⟩
  · cases pdf_ids with
    | none => simp at hi
    | some l =>
      have hlt : countOwnedPdfs db user_id l < l.length :=
        filter_owned_lt_of_foreign db.pdfs PDFRow.id
          (fun p => p.user_id == user_id) l hwf.2.2.1 i hi
          (fun r hr hcon => hno ⟨r, hr, hcon.1, by simpa using hcon.2⟩)
      exact h3 ⟨by simp only [listTruthy]; simpa using List.ne_nil_of_mem hi, Nat.ne_of_lt hlt⟩
  · cases note_ids with
    | none => simp at hi
    | some l =>
      have hlt : countOwnedNotes db user_id l < l.length :=
        filter_owned_lt_of_foreign db.notes NoteRow.id
          (fun n => n.user_id == user_id) l hwf.2.2.2 i hi
          (fun r hr hcon => hno ⟨r, hr, hcon.1, by simpa using hcon.2⟩)
      exact h4 ⟨by simp only [listTruthy]; simpa using List.ne_nil_of_mem hi, Nat.ne_of_lt hlt⟩

/-- A duplicated id in a supplied list makes `_validate_context_ids` raise a
400. -/
theorem validate_error_of_dup (db : DB) (user_id : Nat)
    (class_ids assignment_ids pdf_ids note_ids : Option (List Nat))
    (hwf : DB.WF db)
    (h : ¬ (class_ids.getD []).Nodup ∨ ¬ (assignment_ids.getD []).Nodup
      ∨ ¬ (pdf_ids.getD []).Nodup ∨ ¬ (note_ids.getD []).Nodup) :
    ∃ e, validate_context_ids db user_id class_ids assignment_ids pdf_ids note_ids =
      .error e ∧ e.status_code = 400 := by
  unfold validate_context_ids
  split_ifs with h1 h2 h3 h4
  · exact ⟨_, rfl, rfl⟩
  · exact ⟨_, rfl, rfl⟩
  · exact ⟨_, rfl, rfl⟩
  · exact ⟨_, rfl, rfl⟩
  exfalso
  rcases h with hd | hd | hd | hd
  · cases class_ids with
    | none => simp at hd
    | some l =>
      have hlt : countOwnedClasses db user_id l < l.length :=
        filter_owned_lt_of_dup db.classes ClassRow.id
          (fun c => c.user_id == user_id) l hwf.1 hd
      have hne : l ≠ [] := by rintro rfl; exact hd List.nodup_nil
      exact h1 ⟨by simp [listTruthy, hne], Nat.ne_of_lt hlt⟩
  · cases assignment_ids with
    | none => simp at hd
    | some l =>
      have hlt : countOwnedAssignments db user_id l < l.length :=
        filter_owned_lt_of_dup db.assignments AssignmentRow.id
          (fun a => a.user_id == user_id) l hwf.2.1 hd
      have hne : l ≠ [] := by rintro rfl; exact hd List.nodup_nil
      exact h2 ⟨by simp [listTruthy, hne], Nat.ne_of_lt hlt⟩
  · cases pdf_ids with
    | none => simp at hd
    | some l =>
      have hlt : countOwnedPdfs db user_id l < l.length :=
        filter_owned_lt_of_dup db.pdfs PDFRow.id
          (fun p => p.user_id == user_id) l hwf.2.2.1 hd
      have hne : l ≠ [] := by rintro rfl; exact hd List.nodup_nil
      exact h3 ⟨by simp [listTruthy, hne], Nat.ne_of_lt hlt⟩
  · cases note_ids with
    | none => simp at hd
    | some l =>
      have hlt : countOwnedNotes db user_id l < l.length :=
        filter_owned_lt_of_dup db.notes NoteRow.id
          (fun n => n.user_id == user_id) l hwf.2.2.2 hd
      have hne : l ≠ [] := by rintro rfl; exact hd List.nodup_nil
      exact h4 ⟨by simp [listTruthy, hne], Nat.ne_of_lt hlt⟩

/-- `lst or None` then `.getD []` gives back the original list. -/
theorem noneIfEmpty_getD (l : List Nat) : (noneIfEmpty l).getD [] = l := by
  by_cases h : l.isEmpty
  · have he : l = [] := by simpa using h
    simp [noneIfEmpty, h, he]
  · simp [noneIfEmpty, h]

/-- A duplicated class id makes `_validate_context_ids` raise exactly the
class-ids 400 error (the class check runs first). -/
theorem validate_dup_class (db : DB) (user_id : Nat)
    (class_ids assignment_ids pdf_ids note_ids : Option (List Nat))
    (hnd : (db.classes.map ClassRow.id).Nodup) (hd : ¬ (class_ids.getD []).Nodup) :
    validate_context_ids db user_id class_ids assignment_ids pdf_ids note_ids =
      .error ⟨400, "One or more class IDs are invalid or do not belong to you."⟩ := by
  cases class_ids with
  | none => exact absurd List.nodup_nil hd
  | some l =>
    have hlt : countOwnedClasses db user_id l < l.length :=
      filter_owned_lt_of_dup db.classes ClassRow.id
        (fun c => c.user_id == user_id) l hnd hd
    have hne : l ≠ [] := by rintro rfl; exact hd List.nodup_nil
    unfold validate_context_ids
    rw [if_pos ⟨by simp only [listTruthy]; simpa using hne, Nat.ne_of_lt hlt⟩]

/-- C7: conversation creation and context update reject the request with a
400 validation error — leaving the store untouched, so nothing is persisted
and no conversation field changes — whenever any supplied class, assignment,
PDF or note id does not resolve to a row owned by the requesting user. -/
theorem c7_context_validation :
    ∀ (db : DB) (user_id : Nat), DB.WF db →
      (∀ request : ConversationCreateRequest,
        HasForeignId db user_id request.context_class_ids request.context_assignment_ids
          request.context_pdf_ids request.context_note_ids →
        ∃ e, create_conversation db user_id request = (.error e, db) ∧ e.status_code = 400)
      ∧ (∀ (conversation_id : Nat) (request : ConversationUpdateContextRequest)
          (conv : ConversationRow),
        db.conversations.find?
            (fun c => c.id == conversation_id && c.user_id == user_id) = some conv →
        HasForeignId db user_id (request.context_class_ids.getD [])
          (request.context_assignment_ids.getD []) (request.context_pdf_ids.getD [])
          (request.context_note_ids.getD []) →
        ∃ e, update_conversation_context db user_id conversation_id request = (.error e, db)
          ∧ e.status_code = 400) := by
  intro db user_id hwf
  constructor
  · intro request h
    have h2 : HasForeignId db user_id ((noneIfEmpty request.context_class_ids).getD [])
        ((noneIfEmpty request.context_assignment_ids).getD [])
        ((noneIfEmpty request.context_pdf_ids).getD [])
        ((noneIfEmpty request.context_note_ids).getD []) := by
      simpa only [noneIfEmpty_getD] using h
    obtain ⟨e, hv, h400⟩ := validate_error_of_foreign db user_id _ _ _ _ hwf h2
    refine ⟨e, ?_, h400⟩
    simp only [create_conversation, hv]
  · intro conversation_id request conv hfind h
    obtain ⟨e, hv, h400⟩ := validate_error_of_foreign db user_id _ _ _ _ hwf h
    refine ⟨e, ?_, h400⟩
    simp only [update_conversation_context, hfind, hv]

/-- A one-class store owned by user 1, for witnesses. -/
def oneClassDB : DB := { emptyDB with classes := [⟨1, 1, "Math", none⟩] }

/-- Witness for C7: creating a conversation naming foreign class id 2 is
rejected with a 400 and persists nothing. -/
theorem c7_context_validation_witness :
    DB.WF oneClassDB
    ∧ HasForeignId oneClassDB 1 [2] [] [] []
    ∧ ∃ e, create_conversation oneClassDB 1 ⟨none, [2], [], [], []⟩ =
        (.error e, oneClassDB) ∧ e.status_code = 400 := by
  have hwf : DB.WF oneClassDB := ⟨by decide, by decide, by decide, by decide⟩
  have hno : ¬ ownsClass oneClassDB 1 2 := by
    rintro ⟨c, hc, hid, -⟩
    simp only [oneClassDB, emptyDB] at hc
    simp at hc
    rw [hc] at hid
    simp at hid
  have hforeign : HasForeignId oneClassDB 1 [2] [] [] [] :=
    Or.inl ⟨2, by decide, hno⟩
  exact ⟨hwf, hforeign,
    (c7_context_validation oneClassDB 1 hwf).1 ⟨none, [2], [], [], []⟩ hforeign⟩

/-- C10: a duplicated id in any of the four supplied lists makes creation
and context update fail with the same 400 validation error as a foreign id,
because the count of distinct matching rows is compared with the list
length; for a duplicated class id the error is exactly the class-ids 400. -/
theorem c10_duplicate_ids_rejected :
    ∀ (db : DB) (user_id : Nat), DB.WF db →
      (∀ request : ConversationCreateRequest,
        (¬ request.context_class_ids.Nodup ∨ ¬ request.context_assignment_ids.Nodup
          ∨ ¬ request.context_pdf_ids.Nodup ∨ ¬ request.context_note_ids.Nodup) →
        ∃ e, create_conversation db user_id request = (.error e, db) ∧ e.status_code = 400)
      ∧ (∀ request : ConversationCreateRequest, ¬ request.context_class_ids.Nodup →
        create_conversation db user_id request =
          (.error ⟨400, "One or more class IDs are invalid or do not belong to you."⟩, db))
      ∧ (∀ (conversation_id : Nat) (request : ConversationUpdateContextRequest)
          (conv : ConversationRow),
        db.conversations.find?
            (fun c => c.id == conversation_id && c.user_id == user_id) = some conv →
        (¬ (request.context_class_ids.getD []).Nodup
          ∨ ¬ (request.context_assignment_ids.getD []).Nodup
          ∨ ¬ (request.context_pdf_ids.getD []).Nodup
          ∨ ¬ (request.context_note_ids.getD []).Nodup) →
        ∃ e, update_conversation_context db user_id conversation_id request = (.error e, db)
          ∧ e.status_code = 400) := by
  intro db user_id hwf
  refine ⟨?_, ?_, ?_⟩
  · intro request h
    have h2 : ¬ ((noneIfEmpty request.context_class_ids).getD []).Nodup
        ∨ ¬ ((noneIfEmpty request.context_assignment_ids).getD []).Nodup
        ∨ ¬ ((noneIfEmpty request.context_pdf_ids).getD []).Nodup
        ∨ ¬ ((noneIfEmpty request.context_note_ids).getD []).Nodup := by
      simpa only [noneIfEmpty_getD] using h
    obtain ⟨e, hv, h400⟩ := validate_error_of_dup db user_id _ _ _ _ hwf h2
    refine ⟨e, ?_, h400⟩
    simp only [create_conversation, hv]
  · intro request h
    have h2 : ¬ ((noneIfEmpty request.context_class_ids).getD []).Nodup := by
      simpa only [noneIfEmpty_getD] using h
    have hv := validate_dup_class db user_id (noneIfEmpty request.context_class_ids)
      (noneIfEmpty request.context_assignment_ids) (noneIfEmpty request.context_pdf_ids)
      (noneIfEmpty request.context_note_ids) hwf.1 h2
    simp only [create_conversation, hv]
  · intro conversation_id request conv hfind h
    obtain ⟨e, hv, h400⟩ := validate_error_of_dup db user_id _ _ _ _ hwf h
    refine ⟨e, ?_, h400⟩
    simp only [update_conversation_context, hfind, hv]

/-- Witness for C10: supplying owned class id 1 twice is rejected with the
class-ids 400 error and persists nothing. -/
theorem c10_duplicate_ids_rejected_witness :
    DB.WF oneClassDB
    ∧ ¬ ([1, 1] : List Nat).Nodup
    ∧ create_conversation oneClassDB 1 ⟨none, [1, 1], [], [], []⟩ =
        (.error ⟨400, "One or more class IDs are invalid or do not belong to you."⟩,
          oneClassDB) := by
  have hwf : DB.WF oneClassDB := ⟨by decide, by decide, by decide, by decide⟩
  exact ⟨hwf, by decide,
    (c10_duplicate_ids_rejected oneClassDB 1 hwf).2.1 ⟨none, [1, 1], [], [], []⟩ (by decide)⟩

/-- Total character count of a list of parts. -/
def sumLens (l : List String) : Nat := (l.map String.length).sum

/-- Joined length: the parts plus one separator between consecutive parts. -/
theorem strJoin_length (sep : String) :
    ∀ l : List String, l ≠ [] →
      (strJoin sep l).length = sumLens l + sep.length * (l.length - 1) := by
  intro l
  induction l with
  | nil => intro h; exact absurd rfl h
  | cons a t ih =>
    intro _
    cases t with
    | nil => simp [strJoin, sumLens]
    | cons b t2 =>
      have ht : (b :: t2 : List String) ≠ [] := by simp
      have hlen : (strJoin sep (a :: b :: t2)).length =
          a.length + sep.length + (strJoin sep (b :: t2)).length := by
        show ((a ++ sep) ++ strJoin sep (b :: t2)).length = _
        rw [String.length_append, String.length_append]
      rw [hlen, ih ht]
      simp only [sumLens, List.map_cons, List.sum_cons, List.length_cons,
        Nat.add_sub_cancel, Nat.mul_add, Nat.mul_one]
      omega

/-- A join starting with a part is at least that part long. -/
theorem le_strJoin_length (sep a : String) (l : List String) :
    a.length ≤ (strJoin sep (a :: l)).length := by
  cases l with
  | nil => simp [strJoin]
  | cons b t =>
    show a.length ≤ ((a ++ sep) ++ strJoin sep (b :: t)).length
    rw [String.length_append, String.length_append]
    omega

/-- When every part is non-empty, there are at most as many parts as
characters. -/
theorem length_le_sumLens :
    ∀ l : List String, (∀ p ∈ l, 1 ≤ p.length) → l.length ≤ sumLens l := by
  intro l
  induction l with
  | nil => intro _; simp [sumLens]
  | cons a t ih =>
    intro h
    have ha := h a (by simp)
    have ht := ih (fun p hp => h p (by simp [hp]))
    simp only [sumLens, List.map_cons, List.sum_cons, List.length_cons] at *
    omega

/-- Invariant maintained by `_add_part`: the running total counts exactly
the collected parts, stays within the budget, and every part is
non-empty. -/
def PartsInv (max_total : Nat) (st : BuildState) : Prop :=
  sumLens st.context_parts = st.total_chars ∧ st.total_chars ≤ max_total
    ∧ ∀ p ∈ st.context_parts, 1 ≤ p.length

theorem partsInv_init (max_total : Nat) : PartsInv max_total ⟨[], 0⟩ :=
  ⟨rfl, Nat.zero_le _, by simp⟩

theorem partsInv_add_part {max_total : Nat} {st : BuildState} {p : String}
    (h : PartsInv max_total st) (hp : 1 ≤ p.length) :
    PartsInv max_total (add_part max_total st p) := by
  unfold add_part
  by_cases hc : st.total_chars + p.length > max_total
  · rw [if_pos hc]; exact h
  · rw [if_neg hc]
    refine ⟨?_, by show st.total_chars + p.length ≤ max_total; omega, ?_⟩
    · show sumLens (st.context_parts ++ [p]) = st.total_chars + p.length
      simp only [sumLens, List.map_append, List.sum_append, List.map_cons,
        List.sum_cons, List.map_nil, List.sum_nil]
      have := h.1
      simp only [sumLens] at this
      omega
    · intro q hq
      rcases List.mem_append.mp hq with hq | hq
      · exact h.2.2 q hq
      · rw [List.mem_singleton.mp hq]; exact hp

/-- Appending any string keeps at least the length of the right operand. -/
theorem one_le_append_right (a b : String) (h : 1 ≤ b.length) :
    1 ≤ (a ++ b).length := by
  rw [String.length_append]; omega

theorem classLoop_inv (s : Settings) (user_id : Nat) :
    ∀ (ids : List Nat) (st : BuildState) (db : DB),
      PartsInv s.max_total_context_chars st →
      PartsInv s.max_total_context_chars (classLoop s user_id ids (st, db)).1 := by
  intro ids
  induction ids with
  | nil => intro st db h; exact h
  | cons class_id rest ih =>
    intro st db h
    show PartsInv s.max_total_context_chars
      (classLoop s user_id (class_id :: rest) (st, db)).1
    rw [classLoop]
    by_cases hb : st.total_chars ≥ s.max_total_context_chars
    · rw [if_pos hb]; exact h
    · rw [if_neg hb]
      have h1 : PartsInv s.max_total_context_chars
          (match db.classes.find? (fun c => c.id == class_id && c.user_id == user_id) with
            | some class_obj => add_part s.max_total_context_chars st (classHeader class_obj)
            | none => st) := by
        cases db.classes.find? (fun c => c.id == class_id && c.user_id == user_id) with
        | some class_obj =>
          exact partsInv_add_part h (one_le_append_right _ _ (by decide))
        | none => exact h
      cases hcb : (get_or_create_brain db user_id (some class_id)).1.content != "" with
      | true =>
        simp only [hcb]
        exact ih _ _ (partsInv_add_part h1 (one_le_append_right _ _ (by decide)))
      | false =>
        simp only [hcb]
        exact ih _ _ h1

theorem pdfLoop_inv (s : Settings) :
    ∀ (pdfs : List PDFRow) (st : BuildState),
      PartsInv s.max_total_context_chars st →
      PartsInv s.max_total_context_chars (pdfLoop s pdfs st) := by
  intro pdfs
  induction pdfs with
  | nil => intro st h; exact h
  | cons pdf rest ih =>
    intro st h
    rw [pdfLoop]
    by_cases hb : st.total_chars ≥ s.max_total_context_chars
    · rw [if_pos hb]; exact h
    · rw [if_neg hb]
      cases ht : strTruthy pdf.extracted_text with
      | true =>
        simp only [ht]
        exact ih _ (partsInv_add_part h (one_le_append_right _ _ (by decide)))
      | false =>
        simp only [ht]
        exact ih _ h

theorem noteLoop_inv (s : Settings) :
    ∀ (notes : List NoteRow) (st : BuildState),
      PartsInv s.max_total_context_chars st →
      PartsInv s.max_total_context_chars (noteLoop s notes st) := by
  intro notes
  induction notes with
  | nil => intro st h; exact h
  | cons note rest ih =>
    intro st h
    rw [noteLoop]
    by_cases hb : st.total_chars ≥ s.max_total_context_chars
    · rw [if_pos hb]; exact h
    · rw [if_neg hb]
      cases ht : strTruthy note.content_text with
      | true =>
        simp only [ht]
        exact ih _ (partsInv_add_part h (one_le_append_right _ _ (by decide)))
      | false =>
        simp only [ht]
        exact ih _ h

theorem assignmentsStage_inv (s : Settings) (db : DB) (user_id : Nat)
    (assignment_ids : List Nat) (st : BuildState)
    (h : PartsInv s.max_total_context_chars st) :
    PartsInv s.max_total_context_chars
      (assignmentsStage s db user_id assignment_ids st) := by
  unfold assignmentsStage
  split
  · split
    · refine partsInv_add_part h ?_
      calc 1 ≤ ("# Assignments in Context\n" : String).length := by decide
        _ ≤ _ := le_strJoin_length _ _ _
    · exact h
  · exact h

theorem pdfStage_inv (s : Settings) (db : DB) (user_id : Nat)
    (pdf_ids : List Nat) (st : BuildState)
    (h : PartsInv s.max_total_context_chars st) :
    PartsInv s.max_total_context_chars (pdfStage s db user_id pdf_ids st) := by
  unfold pdfStage
  split
  · exact pdfLoop_inv s _ st h
  · exact h

theorem noteStage_inv (s : Settings) (db : DB) (user_id : Nat)
    (note_ids : List Nat) (st : BuildState)
    (h : PartsInv s.max_total_context_chars st) :
    PartsInv s.max_total_context_chars (noteStage s db user_id note_ids st) := by
  unfold noteStage
  split
  · exact noteLoop_inv s _ st h
  · exact h

/-- Bound on the joined context, given the `_add_part` invariant: the
budgeted characters, plus one two-character separator per part (each part
being non-empty, there are at most `max_total` of them), plus possibly the
overflow marker part. -/
theorem final_bound (max_total : Nat) (st : BuildState)
    (hinv : PartsInv max_total st) :
    (if (if st.total_chars ≥ max_total then st.context_parts ++ [overflowMarker]
          else st.context_parts) ≠ [] then
        strJoin "\n\n" (if st.total_chars ≥ max_total then st.context_parts ++ [overflowMarker]
          else st.context_parts)
      else "No context available.").length ≤ 3 * max_total + overflowMarker.length := by
  have hmarker : overflowMarker.length = 57 := by decide
  have hsep : ("\n\n" : String).length = 2 := by decide
  have hparts : st.context_parts.length ≤ st.total_chars := by
    rw [← hinv.1]; exact length_le_sumLens _ hinv.2.2
  have htot : st.total_chars ≤ max_total := hinv.2.1
  by_cases hov : st.total_chars ≥ max_total
  · rw [if_pos hov]
    have hnil : st.context_parts ++ [overflowMarker] ≠ [] := by simp
    rw [if_pos hnil, strJoin_length _ _ hnil]
    have hsum : sumLens (st.context_parts ++ [overflowMarker]) =
        st.total_chars + overflowMarker.length := by
      simp only [sumLens, List.map_append, List.sum_append, List.map_cons,
        List.sum_cons, List.map_nil, List.sum_nil]
      have := hinv.1
      simp only [sumLens] at this
      omega
    rw [hsum, List.length_append, hsep, hmarker]
    simp only [List.length_cons, List.length_nil]
    omega
  · rw [if_neg hov]
    by_cases hnil : st.context_parts ≠ []
    · rw [if_pos hnil, strJoin_length _ _ hnil, hinv.1, hsep]
      omega
    · rw [if_neg hnil]
      have : ("No context available." : String).length = 21 := by decide
      omega

/-- C1 amended: for every store and input, the context returned by
`build_context` has length at most 3 times `max_total_context_chars` plus
the overflow marker part (57 characters with its leading blank line): the
budget bounds the parts themselves, but each appended part additionally
costs a two-character blank-line separator that `_add_part` does not count,
and the parts can be as many as the budgeted characters. -/
theorem c1_amended_bound :
    ∀ (s : Settings) (db : DB) (user_id : Nat)
      (class_ids assignment_ids pdf_ids note_ids : List Nat),
      ((build_context s db user_id class_ids assignment_ids pdf_ids note_ids).1).length
        ≤ 3 * s.max_total_context_chars + overflowMarker.length := by
  intro s db user_id class_ids assignment_ids pdf_ids note_ids
  simp only [build_context]
  refine final_bound s.max_total_context_chars _ ?_
  refine noteStage_inv _ _ _ _ _ (pdfStage_inv _ _ _ _ _
    (assignmentsStage_inv _ _ _ _ _ (classLoop_inv _ _ _ _ _ ?_)))
  by_cases hg : (get_or_create_brain db user_id none).1.content != ""
  · simp only [hg, if_true]
    exact partsInv_add_part (partsInv_init _) (one_le_append_right _ _ (by decide))
  · simp only [hg]
    simp only [Bool.false_eq_true, if_false]
    exact partsInv_init _

/-- A string of n copies of the character a. -/
def mkRep (n : Nat) : String := String.mk (List.replicate n 'a')

theorem mkRep_length (n : Nat) : (mkRep n).length = n := by
  show (List.replicate n 'a').length = n
  simp

/-- `add_part` in the fitting case, with the part length given. -/
theorem add_part_fits (max_total : Nat) (st : BuildState) (part : String) (n : Nat)
    (hlen : part.length = n) (hfit : st.total_chars + n ≤ max_total) :
    add_part max_total st part = ⟨st.context_parts ++ [part], st.total_chars + n⟩ := by
  unfold add_part
  rw [hlen, if_neg (by omega)]

/-- The global brain of the C1 counterexample store: 99960 characters of
content, making a 99980-character global part. -/
def c1Brain : BrainRow := ⟨0, 7, none, "global", mkRep 99960, 0, none⟩

/-- The C1 counterexample store: the big global brain plus two classes with
empty names, whose 10-character headings land the running total exactly on
the 100000-character budget. -/
def c1DB : DB := ⟨[⟨1, 7, "", none⟩, ⟨2, 7, "", none⟩], [], [], [], [c1Brain], [], 10⟩

/-- The global part of the C1 counterexample context. -/
def c1GPart : String := "# Global Knowledge\n" ++ mkRep 99960 ++ "\n"

/-- The class brain lazily created for class 1 during the counterexample. -/
def c1Brain2 : BrainRow := ⟨10, 7, some 1, "class", "", 0, none⟩

/-- The store after the class-1 brain is created. -/
def c1DB2 : DB := { c1DB with brains := c1DB.brains ++ [c1Brain2], next_id := 11 }

/-- The class brain lazily created for class 2. -/
def c1Brain3 : BrainRow := ⟨11, 7, some 2, "class", "", 0, none⟩

/-- The store after both class brains are created. -/
def c1DB3 : DB := { c1DB2 with brains := c1DB2.brains ++ [c1Brain3], next_id := 12 }

theorem c1GPart_length : c1GPart.length = 99980 := by
  show (("# Global Knowledge\n" ++ mkRep 99960) ++ "\n").length = 99980
  rw [String.length_append, String.length_append, mkRep_length]
  decide

theorem c1_loop_step1 :
    classLoop defaultSettings 7 [1, 2] (⟨[c1GPart], 99980⟩, c1DB) =
      classLoop defaultSettings 7 [2] (⟨[c1GPart, "# Class: \n"], 99990⟩, c1DB2) := by
  conv_lhs => rw [classLoop]
  rw [if_neg (by decide)]
  rw [show c1DB.classes.find? (fun c => c.id == 1 && c.user_id == 7) =
    some ⟨1, 7, "", none⟩ from rfl]
  dsimp only
  rw [show add_part defaultSettings.max_total_context_chars ⟨[c1GPart], 99980⟩
      (classHeader ⟨1, 7, "", none⟩) = ⟨[c1GPart, "# Class: \n"], 99990⟩ from
    (add_part_fits _ _ _ 10 (by decide) (by decide)).trans rfl]
  rw [show get_or_create_brain c1DB 7 (some 1) = (c1Brain2, c1DB2) from rfl]
  dsimp only [c1Brain2]
  rw [if_neg (by decide)]

theorem c1_loop_step2 :
    classLoop defaultSettings 7 [2] (⟨[c1GPart, "# Class: \n"], 99990⟩, c1DB2) =
      (⟨[c1GPart, "# Class: \n", "# Class: \n"], 100000⟩, c1DB3) := by
  conv_lhs => rw [classLoop]
  rw [if_neg (by decide)]
  rw [show c1DB2.classes.find? (fun c => c.id == 2 && c.user_id == 7) =
    some ⟨2, 7, "", none⟩ from rfl]
  dsimp only
  rw [show add_part defaultSettings.max_total_context_chars
      ⟨[c1GPart, "# Class: \n"], 99990⟩ (classHeader ⟨2, 7, "", none⟩) =
      ⟨[c1GPart, "# Class: \n", "# Class: \n"], 100000⟩ from
    (add_part_fits _ _ _ 10 (by decide) (by decide)).trans rfl]
  rw [show get_or_create_brain c1DB2 7 (some 2) = (c1Brain3, c1DB3) from rfl]
  dsimp only [c1Brain3]
  rw [if_neg (by decide)]
  rfl

theorem c1_context_value :
    (build_context defaultSettings c1DB 7 [1, 2] [] [] []).1 =
      strJoin "\n\n" [c1GPart, "# Class: \n", "# Class: \n", overflowMarker] := by
  simp only [build_context]
  rw [show get_or_create_brain c1DB 7 none = (c1Brain, c1DB) from rfl]
  dsimp only [c1Brain]
  rw [if_pos (show (mkRep 99960 != "") = true from bne_iff_ne.mpr (by
    intro h
    have h2 := congrArg String.length h
    rw [mkRep_length] at h2
    exact absurd h2 (by decide)))]
  rw [show add_part defaultSettings.max_total_context_chars ⟨[], 0⟩
      ("# Global Knowledge\n" ++ mkRep 99960 ++ "\n") = ⟨[c1GPart], 99980⟩ from
    (add_part_fits _ _ _ 99980 c1GPart_length (by decide)).trans rfl]
  rw [c1_loop_step1, c1_loop_step2]
  dsimp only
  rw [show assignmentsStage defaultSettings c1DB3 7 []
      ⟨[c1GPart, "# Class: \n", "# Class: \n"], 100000⟩ =
      ⟨[c1GPart, "# Class: \n", "# Class: \n"], 100000⟩ from rfl]
  rw [show pdfStage defaultSettings c1DB3 7 []
      ⟨[c1GPart, "# Class: \n", "# Class: \n"], 100000⟩ =
      ⟨[c1GPart, "# Class: \n", "# Class: \n"], 100000⟩ from rfl]
  rw [show noteStage defaultSettings c1DB3 7 []
      ⟨[c1GPart, "# Class: \n", "# Class: \n"], 100000⟩ =
      ⟨[c1GPart, "# Class: \n", "# Class: \n"], 100000⟩ from rfl]
  rw [if_pos (by decide :
    (⟨[c1GPart, "# Class: \n", "# Class: \n"], 100000⟩ : BuildState).total_chars ≥
      defaultSettings.max_total_context_chars)]
  rw [if_pos (by simp :
    ([c1GPart, "# Class: \n", "# Class: \n"] ++ [overflowMarker]) ≠ [])]
  rfl

theorem c1_join_length :
    (strJoin "\n\n"
      [c1GPart, "# Class: \n", "# Class: \n", overflowMarker]).length = 100063 := by
  show ((c1GPart ++ "\n\n") ++ (("# Class: \n" ++ "\n\n") ++
    (("# Class: \n" ++ "\n\n") ++ overflowMarker))).length = 100063
  simp only [String.length_append]
  rw [c1GPart_length]
  decide

/-- C1 counterexample: the output of `build_context` is not bounded by
`max_total_context_chars` plus the overflow marker with its separators: the
blank-line join separators between content parts are never counted against
the budget.  At the default settings, a store whose parts total exactly
100000 characters over four parts yields a 100063-character context,
exceeding the claimed 100059-character bound. -/
theorem c1_counterexample :
    ¬ (∀ (s : Settings) (db : DB) (user_id : Nat)
        (class_ids assignment_ids pdf_ids note_ids : List Nat),
        ((build_context s db user_id class_ids assignment_ids pdf_ids note_ids).1).length
          ≤ s.max_total_context_chars + (overflowMarker.length + 2)) := by
  intro hclaim
  have h := hclaim defaultSettings c1DB 7 [1, 2] [] [] []
  rw [c1_context_value, c1_join_length] at h
  exact absurd h (by decide)

end Helm
